import Mathlib

/-!
Verification development for the aws-mongodb-app backend.

This file gives a shallow embedding of the backend's authentication
utilities (`backend/utils/jwt.js`), the startup environment check
(`backend/start.js`), the users routes (`backend/routes/users.js`) and the
products routes (`backend/routes/products.js`), and proves properties of
those embeddings.

Modelling conventions:
- JS strings are Lean `String`, except in the bearer-header parser where a
  string is a `List Char` so that splitting on spaces can be reasoned about
  by structural induction.
- Unix times and durations are `Nat` seconds (`Math.floor(Date.now()/1000)`).
- A JS value that may be `undefined`/`null` is an `Option`.  JS falsiness of
  strings (`undefined`, `null` and `""` are all falsy) is modelled where the
  code relies on it.
- A signed JWT is modelled structurally: a `Token` carries its payload and
  the secret it was signed with; signature verification succeeds exactly
  when the verifying secret equals the signing secret, which is the
  functional contract of HMAC signing for well-formed tokens.
- The MongoDB collections are association lists from id strings to records;
  `findById` is a first-match lookup, `findByIdAndUpdate` maps the matching
  entry, `findByIdAndDelete` filters it out.  Ids stand for valid object
  ids (the Mongoose cast-error path for syntactically invalid ids is out of
  scope).
-/

namespace AwsMongoApp

/-! ### Generic association-list store operations (Mongoose collection model) -/

/-- `findById`: first record whose id matches, if any. -/
def lookupRec {α : Type} (store : List (String × α)) (id : String) : Option α :=
  (store.find? (fun p => p.fst == id)).map Prod.snd

/-- `findByIdAndUpdate`: apply `f` to the record stored under `id`. -/
def updateRec {α : Type} (store : List (String × α)) (id : String) (f : α → α) :
    List (String × α) :=
  store.map (fun p => if p.fst == id then (p.fst, f p.snd) else p)

/-- `findByIdAndDelete`: remove the record stored under `id`. -/
def removeRec {α : Type} (store : List (String × α)) (id : String) :
    List (String × α) :=
  store.filter (fun p => p.fst != id)

theorem lookupRec_updateRec_self {α : Type} (store : List (String × α)) (id : String)
    (f : α → α) : lookupRec (updateRec store id f) id = (lookupRec store id).map f := by
  induction store with
  | nil => rfl
  | cons hd tl ih =>
    by_cases h : hd.fst == id
    · simp [lookupRec, updateRec, List.find?, h]
    · simpa [lookupRec, updateRec, List.find?, h] using ih

theorem lookupRec_updateRec_other {α : Type} (store : List (String × α)) (id j : String)
    (f : α → α) (hne : j ≠ id) :
    lookupRec (updateRec store id f) j = lookupRec store j := by
  induction store with
  | nil => rfl
  | cons hd tl ih =>
    by_cases h : hd.fst == id
    · have hid : hd.fst = id := by simpa using h
      have hj : ¬ (hd.fst == j) = true := by
        simp [hid]
        exact fun hc => hne hc.symm
      simp [lookupRec, updateRec, List.find?, h, hj] at ih ⊢
      simpa [lookupRec] using ih
    · by_cases hj : hd.fst == j
      · simp [lookupRec, updateRec, List.find?, h, hj]
      · simp [lookupRec, updateRec, List.find?, h, hj] at ih ⊢
        simpa [lookupRec] using ih

/-! ### JWT utilities (`backend/utils/jwt.js`) -/

/-- The environment the jwt module reads: `JWT_SECRET`, `JWT_EXPIRE`
(a duration, modelled resolved to seconds; `none` when unset or falsy) and
`APP_NAME` (`none` when unset or falsy). -/
structure JwtEnv where
  jwtSecret : String
  jwtExpire : Option Nat := none
  appName : Option String := none
deriving DecidableEq

/-- Options object accepted by `generateToken`.  `expiresIn` is a duration
resolved to seconds; a JS-falsy `expiresIn` (absent, `0`, `""`) is `none`,
matching the `options.expiresIn || ...` fallback chain. -/
structure TokenOptions where
  role : Option String := none
  email : Option String := none
  expiresIn : Option Nat := none
deriving DecidableEq

/-- `process.env.APP_NAME || 'AWS MongoDB Backend'` -/
def issuerOf (env : JwtEnv) : String :=
  env.appName.getD "AWS MongoDB Backend"

/-- The fixed audience string used for signing and verifying. -/
def audienceConst : String := "aws-mongodb-app-users"

/-- Decoded JWT payload: the custom claims placed by the jwt module plus the
registered claims the signing library adds (`iat`, `exp`, `iss`, `aud`). -/
structure Payload where
  userId : String
  role : Option String := none
  email : Option String := none
  tokenType : Option String := none
  iat : Nat
  exp : Option Nat := none
  iss : String
  aud : String
deriving DecidableEq

/-- A signed token: payload plus the secret it was signed with.  Verifying
with secret `s` succeeds exactly when `s` equals the signing secret. -/
structure Token where
  payload : Payload
  sig : String
deriving DecidableEq

/-- `options.expiresIn || process.env.JWT_EXPIRE || '7d'`, in seconds
(7 days = 604800 s). -/
def resolveExpiresIn (env : JwtEnv) (opts : TokenOptions) : Nat :=
  opts.expiresIn.getD (env.jwtExpire.getD 604800)

/-- `generateToken(userId, options)`: payload `{userId}` plus optional
`role`/`email`, signed with `JWT_SECRET`, issuer `APP_NAME || default`,
audience `audienceConst`, expiry `now + resolved expiresIn`. -/
def generateToken (env : JwtEnv) (now : Nat) (userId : String)
    (opts : TokenOptions) : Token :=
  { payload :=
      { userId := userId
        role := opts.role
        email := opts.email
        tokenType := none
        iat := now
        exp := some (now + resolveExpiresIn env opts)
        iss := issuerOf env
        aud := audienceConst }
    sig := env.jwtSecret }

/-- `generateRefreshToken(userId)`: payload `{userId, type: 'refresh'}`,
same secret/issuer/audience as access tokens, fixed `'30d'` expiry
(2592000 s). -/
def generateRefreshToken (env : JwtEnv) (now : Nat) (userId : String) : Token :=
  { payload :=
      { userId := userId
        role := none
        email := none
        tokenType := some "refresh"
        iat := now
        exp := some (now + 2592000)
        iss := issuerOf env
        aud := audienceConst }
    sig := env.jwtSecret }

/-- Rejection reasons of `jwt.verify`. -/
inductive VerifyError where
  | invalidSignature
  | expired
  | invalidAudience
  | invalidIssuer
deriving DecidableEq

/-- `verifyToken(token)`: `jwt.verify(token, JWT_SECRET, {issuer, audience})`.
The library validates the signature, then rejects as expired when the
current time has reached `exp` (`clockTimestamp >= exp`), then checks the
audience and issuer claims against the expected values. -/
def verifyToken (env : JwtEnv) (tok : Token) (now : Nat) :
    Except VerifyError Payload :=
  if tok.sig ≠ env.jwtSecret then .error .invalidSignature
  else if (match tok.payload.exp with
           | some e => decide (e ≤ now)
           | none => false) then .error .expired
  else if tok.payload.aud ≠ audienceConst then .error .invalidAudience
  else if tok.payload.iss ≠ issuerOf env then .error .invalidIssuer
  else .ok tok.payload

/-- A candidate token string handed to `jwt.decode`: either it parses to a
structural token or it is malformed (decode yields `null`). -/
inductive TokenString where
  | malformed
  | wellFormed (t : Token)
deriving DecidableEq

/-- `isTokenExpired(token)`: decodes without verification; returns `true`
when decode yields a falsy value, when the `exp` claim is falsy (absent or
the number `0`), or when `exp < currentTime` (strict). -/
def isTokenExpired (s : TokenString) (now : Nat) : Bool :=
  match s with
  | .malformed => true
  | .wellFormed t =>
    match t.payload.exp with
    | none => true
    | some e => if e == 0 then true else decide (e < now)

/-! ### Bearer-header extraction (`extractTokenFromHeader`) -/

/-- The character `' '` (U+0020), the separator of `authHeader.split(' ')`. -/
def spaceChar : Char := Char.ofNat 32

/-- JS `String.prototype.split` with a one-character string separator:
splits on every occurrence, keeping empty segments. -/
def splitOnSpace : List Char → List (List Char)
  | [] => [[]]
  | c :: cs =>
    if c = spaceChar then [] :: splitOnSpace cs
    else
      match splitOnSpace cs with
      | [] => [[c]]
      | p :: ps => (c :: p) :: ps

/-- The scheme word compared against `parts[0]`. -/
def bearerChars : List Char := "Bearer".toList

/-- `extractTokenFromHeader(authHeader)`: `null` for a falsy header (absent
or the empty string); otherwise split on spaces and return the second
segment exactly when there are two segments and the first is `Bearer`. -/
def extractTokenFromHeader : Option (List Char) → Option (List Char)
  | none => none
  | some h =>
    if h = [] then none
    else
      match splitOnSpace h with
      | [p0, p1] => if p0 = bearerChars then some p1 else none
      | _ => none

theorem splitOnSpace_ne_nil (s : List Char) : splitOnSpace s ≠ [] := by
  induction s with
  | nil => simp [splitOnSpace]
  | cons c cs ih =>
    by_cases h : c = spaceChar
    · simp [splitOnSpace, h]
    · cases hs : splitOnSpace cs with
      | nil => exact absurd hs ih
      | cons p ps => simp [splitOnSpace, h, hs]

theorem splitOnSpace_no_space (s : List Char) :
    ∀ p ∈ splitOnSpace s, spaceChar ∉ p := by
  induction s with
  | nil =>
    intro p hp
    simp [splitOnSpace] at hp
    simp [hp]
  | cons c cs ih =>
    intro p hp
    by_cases h : c = spaceChar
    · simp [splitOnSpace, h] at hp
      rcases hp with hp | hp
      · simp [hp]
      · exact ih p hp
    · cases hs : splitOnSpace cs with
      | nil => exact absurd hs (splitOnSpace_ne_nil cs)
      | cons q qs =>
        simp [splitOnSpace, h, hs] at hp
        rcases hp with hp | hp
        · subst hp
          intro hmem
          rcases List.mem_cons.mp hmem with hc | hc
          · exact h hc.symm
          · exact ih q (by simp [hs]) hc
        · exact ih p (by simp [hs, hp])

/-- Rejoin segments with single spaces (inverse of `splitOnSpace`). -/
def joinSpace : List (List Char) → List Char
  | [] => []
  | [p] => p
  | p :: ps => p ++ spaceChar :: joinSpace ps

theorem joinSpace_splitOnSpace (s : List Char) :
    joinSpace (splitOnSpace s) = s := by
  induction s with
  | nil => rfl
  | cons c cs ih =>
    by_cases h : c = spaceChar
    · cases hs : splitOnSpace cs with
      | nil => exact absurd hs (splitOnSpace_ne_nil cs)
      | cons q qs =>
        subst h
        simp [splitOnSpace, hs] at ih ⊢
        simpa [joinSpace] using ih
    · cases hs : splitOnSpace cs with
      | nil => exact absurd hs (splitOnSpace_ne_nil cs)
      | cons q qs =>
        simp [splitOnSpace, h, hs] at ih ⊢
        cases qs with
        | nil => simpa [joinSpace] using ih
        | cons r rs => simpa [joinSpace] using ih

theorem splitOnSpace_of_no_space (a : List Char) (ha : spaceChar ∉ a) :
    splitOnSpace a = [a] := by
  induction a with
  | nil => rfl
  | cons c cs ih =>
    have hc : c ≠ spaceChar := fun h => ha (h ▸ List.mem_cons_self c cs)
    have hcs : spaceChar ∉ cs := fun h => ha (List.mem_cons_of_mem c h)
    simp [splitOnSpace, hc, ih hcs]

theorem splitOnSpace_append (a b : List Char) (ha : spaceChar ∉ a) :
    splitOnSpace (a ++ spaceChar :: b) = a :: splitOnSpace b := by
  induction a with
  | nil => simp [splitOnSpace]
  | cons c cs ih =>
    have hc : c ≠ spaceChar := fun h => ha (h ▸ List.mem_cons_self c cs)
    have hcs : spaceChar ∉ cs := fun h => ha (List.mem_cons_of_mem c h)
    simp [splitOnSpace, hc, ih hcs]

/-! ### Users routes (`backend/routes/users.js`) -/

/-- User record, with the fields the users routes read and write
(username, email, password hash, first/last name, role, active flag,
timestamps). -/
structure User where
  username : String
  email : String
  password : String
  firstName : String
  lastName : String
  role : String
  isActive : Bool
  createdAt : Nat
  updatedAt : Nat
deriving DecidableEq

/-- Identity attached to `req.user` by the auth middleware: the decoded
claims `{userId, role, email}`. -/
structure AuthUser where
  userId : String
  role : String
  email : String
deriving DecidableEq

/-- The users collection. -/
def UserStore := List (String × User)

/-- JSON response of a users route: HTTP status, `success`, optional
`message`, optional `user` payload. -/
structure UserResult where
  status : Nat
  success : Bool
  message : Option String := none
  user : Option User := none
deriving DecidableEq

/-- 403 response of the ownership check. -/
def accessDeniedResult : UserResult :=
  { status := 403, success := false, message := some "Access denied" }

/-- 404 response when `findById` yields nothing. -/
def userNotFoundResult : UserResult :=
  { status := 404, success := false, message := some "User not found" }

/-- 400 response of the username-uniqueness check. -/
def usernameTakenResult : UserResult :=
  { status := 400, success := false, message := some "Username already taken" }

/-- 400 response when Joi validation fails; the library-generated
`error.details[0].message` text is abstracted to a fixed string. -/
def validationErrorResult : UserResult :=
  { status := 400, success := false, message := some "Validation error" }

/-- 400 response of the delete self-protection check. -/
def cannotDeleteSelfResult : UserResult :=
  { status := 400, success := false, message := some "Cannot delete your own account" }

/-- 400 response of the toggle-status self-protection check. -/
def cannotToggleSelfResult : UserResult :=
  { status := 400, success := false, message := some "Cannot change your own status" }

/-- Request body of `PUT /api/users/:id`.  `firstName`, `lastName` and
`username` are the keys the route destructures; the remaining fields stand
for sensitive keys a client might also send, which `updateUserSchema`
(knowing only the three keys) rejects as unknown. -/
structure UpdateBody where
  firstName : Option String := none
  lastName : Option String := none
  username : Option String := none
  role : Option String := none
  email : Option String := none
  password : Option String := none
  isActive : Option Bool := none
deriving DecidableEq

/-- `Joi.string().max(50)`: a non-empty string of at most 50 chars. -/
def validName (s : String) : Bool :=
  1 ≤ s.length && s.length ≤ 50

/-- `Joi.string().min(3).max(30)`. -/
def validUsername (s : String) : Bool :=
  3 ≤ s.length && s.length ≤ 30

/-- `updateUserSchema.validate(req.body)` succeeds: each known key present
satisfies its constraint, and no unknown key is present. -/
def validateUpdateBody (b : UpdateBody) : Bool :=
  (match b.firstName with | none => true | some s => validName s) &&
  (match b.lastName with | none => true | some s => validName s) &&
  (match b.username with | none => true | some s => validUsername s) &&
  b.role.isNone && b.email.isNone && b.password.isNone && b.isActive.isNone

/-- `User.findOne({username, _id: {$ne: id}})` finds a record: some other
user already has this username. -/
def usernameTakenBy (store : UserStore) (id un : String) : Bool :=
  store.any (fun p => p.snd.username == un && p.fst != id)

/-- The update document `{firstName, lastName, username, updatedAt}` applied
by `findByIdAndUpdate`; `undefined` keys are stripped by Mongoose, so an
absent body key leaves the stored field unchanged. -/
def applyUserUpdate (now : Nat) (b : UpdateBody) (u : User) : User :=
  { u with
    firstName := b.firstName.getD u.firstName
    lastName := b.lastName.getD u.lastName
    username := b.username.getD u.username
    updatedAt := now }

/-- Handler of `PUT /api/users/:id` (runs behind `auth`, which attached
`requester`): Joi validation, ownership check, username-uniqueness check,
then `findByIdAndUpdate` with the three profile fields.  The response user
is the updated record (`select('-password')` sanitization not modelled). -/
def putUser (store : UserStore) (now : Nat) (requester : AuthUser)
    (id : String) (body : UpdateBody) : UserResult × UserStore :=
  if !(validateUpdateBody body) then (validationErrorResult, store)
  else if requester.userId != id && requester.role != "admin" then
    (accessDeniedResult, store)
  else if (match body.username with
           | some un => usernameTakenBy store id un
           | none => false) then (usernameTakenResult, store)
  else
    match lookupRec store id with
    | none => (userNotFoundResult, store)
    | some u =>
      ({ status := 200, success := true,
         message := some "User updated successfully",
         user := some (applyUserUpdate now body u) },
       updateRec store id (applyUserUpdate now body))

/-- Handler of `DELETE /api/users/:id` (runs behind `auth` and `admin`):
404 when absent, 400 when the admin targets their own id, otherwise
`findByIdAndDelete`. -/
def deleteUser (store : UserStore) (requester : AuthUser) (id : String) :
    UserResult × UserStore :=
  match lookupRec store id with
  | none => (userNotFoundResult, store)
  | some _ =>
    if requester.userId == id then (cannotDeleteSelfResult, store)
    else
      ({ status := 200, success := true,
         message := some "User deleted successfully" },
       removeRec store id)

/-- Handler of `PUT /api/users/:id/toggle-status` (runs behind `auth` and
`admin`): 404 when absent, 400 when the admin targets their own id,
otherwise flip `isActive` and save. -/
def toggleUserStatus (store : UserStore) (requester : AuthUser) (id : String) :
    UserResult × UserStore :=
  match lookupRec store id with
  | none => (userNotFoundResult, store)
  | some u =>
    if requester.userId == id then (cannotToggleSelfResult, store)
    else
      ({ status := 200, success := true,
         message := some (if !u.isActive then "User activated successfully"
                          else "User deactivated successfully"),
         user := some { u with isActive := !u.isActive } },
       updateRec store id (fun v => { v with isActive := !v.isActive }))

/-! ### Products routes (`backend/routes/products.js`) -/

/-- Product record with the fields of the Product schema.  `price` is an
`Int` abstraction of the numeric price; images/specifications/tags are
string-pair or string lists. -/
structure Product where
  name : String
  description : String
  price : Int
  category : String
  stock : Nat
  images : List (String × String)
  specifications : List (String × String)
  tags : List String
  isActive : Bool
  createdBy : String
  createdAt : Nat
  updatedAt : Nat
deriving DecidableEq

/-- The products collection. -/
def ProductStore := List (String × Product)

/-- JSON response of a products route. -/
structure ProductResult where
  status : Nat
  success : Bool
  message : Option String := none
  product : Option Product := none
deriving DecidableEq

/-- The 404 response body `{success: false, message: 'Product not found'}`,
returned by the single-product read for both an absent and an inactive
product, and by the delete route for an absent product. -/
def productNotFoundResult : ProductResult :=
  { status := 404, success := false, message := some "Product not found" }

/-- Handler of `GET /api/products/:id` (public): 404 when `findById` yields
nothing or the product is inactive, 200 with the product otherwise. -/
def getProductById (store : ProductStore) (id : String) : ProductResult :=
  match lookupRec store id with
  | none => productNotFoundResult
  | some p =>
    if !p.isActive then productNotFoundResult
    else { status := 200, success := true, product := some p }

/-- Handler of `DELETE /api/products/:id` (runs behind `auth` and `admin`):
`findByIdAndUpdate(id, {isActive: false, updatedAt: Date.now()})` — a soft
delete — then 404 when nothing matched, success otherwise. -/
def deleteProduct (store : ProductStore) (now : Nat) (id : String) :
    ProductResult × ProductStore :=
  match lookupRec store id with
  | none => (productNotFoundResult, store)
  | some _ =>
    ({ status := 200, success := true,
       message := some "Product deleted successfully" },
     updateRec store id (fun p => { p with isActive := false, updatedAt := now }))

/-! ### Startup environment check (`backend/start.js`) -/

/-- The startup-relevant environment: whether the `.env` file exists, and
the raw values of the two required variables (`none` when unset). -/
structure StartEnv where
  envFileExists : Bool
  jwtSecret : Option String := none
  mongodbUri : Option String := none
deriving DecidableEq

/-- Outcome of running `start.js`: `process.exit(code)` before serving, or
handing over to `server.js`. -/
inductive StartOutcome where
  | exited (code : Nat)
  | serving
deriving DecidableEq

/-- JS truthiness of `process.env[v]`: truthy iff set and non-empty. -/
def envPresent : Option String → Bool
  | none => false
  | some s => s != ""

/-- `process.env[envVar]` for the two required names. -/
def envLookup (e : StartEnv) (v : String) : Option String :=
  if v == "JWT_SECRET" then e.jwtSecret
  else if v == "MONGODB_URI" then e.mongodbUri
  else none

/-- `requiredEnvVars.filter(envVar => !process.env[envVar])`. -/
def missingEnvVars (e : StartEnv) : List String :=
  ["JWT_SECRET", "MONGODB_URI"].filter (fun v => !envPresent (envLookup e v))

/-- `start.js`: exit 1 when `.env` is missing; exit 1 when some required
environment variable is falsy; otherwise require `server.js` and serve. -/
def startServer (e : StartEnv) : StartOutcome :=
  if !e.envFileExists then .exited 1
  else if 0 < (missingEnvVars e).length then .exited 1
  else .serving

/-! ### Sample data for concrete witnesses -/

/-- A sample environment used by concrete witnesses. -/
def jwtEnv0 : JwtEnv := { jwtSecret := "secret" }

/-- A sample inactive product used by concrete witnesses. -/
def sampleInactiveProduct : Product :=
  { name := "n", description := "d", price := 1, category := "books",
    stock := 0, images := [], specifications := [], tags := [],
    isActive := false, createdBy := "u1", createdAt := 0, updatedAt := 0 }

/-- A sample active product used by concrete witnesses. -/
def sampleActiveProduct : Product :=
  { sampleInactiveProduct with isActive := true }

/-- A sample admin user record used by concrete witnesses. -/
def sampleAdminUser : User :=
  { username := "root", email := "root@x.com", password := "hash",
    firstName := "Root", lastName := "Admin", role := "admin",
    isActive := true, createdAt := 0, updatedAt := 0 }

/-- A sample non-admin user record used by concrete witnesses. -/
def sampleRegularUser : User :=
  { username := "sam", email := "sam@x.com", password := "hash",
    firstName := "Sam", lastName := "Lee", role := "user",
    isActive := true, createdAt := 0, updatedAt := 0 }

/-- A second user record already holding the username `taken`. -/
def sampleTakenUser : User :=
  { sampleRegularUser with username := "taken", email := "taken@x.com" }

/-! ### Claim theorems -/

/-- C1: for every valid (non-empty) user id `u`, verifying the access token
issued for `u` succeeds (given a positive resolved expiry, which the fixed
configuration defaults guarantee) and the decoded claims carry
`userId = u`. -/
theorem verify_generateToken_roundtrip (env : JwtEnv) (now : Nat) (u : String)
    (opts : TokenOptions) (hu : u ≠ "") (hexp : 0 < resolveExpiresIn env opts) :
    verifyToken env (generateToken env now u opts) now =
      .ok (generateToken env now u opts).payload ∧
    (generateToken env now u opts).payload.userId = u := by
  have h1 : ¬ (now + resolveExpiresIn env opts ≤ now) := by omega
  exact ⟨by simp [verifyToken, generateToken, h1], rfl⟩

/-- C1 witness: the round trip at a concrete environment, user and time. -/
theorem verify_generateToken_roundtrip_witness :
    verifyToken jwtEnv0 (generateToken jwtEnv0 0 "alice" {}) 0 =
      .ok (generateToken jwtEnv0 0 "alice" {}).payload ∧
    (generateToken jwtEnv0 0 "alice" {}).payload.userId = "alice" :=
  verify_generateToken_roundtrip jwtEnv0 0 "alice" {} (by decide) (by decide)

/-- C6: a refresh token's payload carries exactly the user id and the
`type: refresh` tag (no role, no email), it is signed with the same secret,
issuer and audience as every access token, and its expiry is the fixed
30-day duration (2592000 s) for every input — the function takes no option
argument, so no caller can override it. -/
theorem generateRefreshToken_spec (env : JwtEnv) (now : Nat) (u : String)
    (opts : TokenOptions) :
    (generateRefreshToken env now u).payload.userId = u ∧
    (generateRefreshToken env now u).payload.tokenType = some "refresh" ∧
    (generateRefreshToken env now u).payload.role = none ∧
    (generateRefreshToken env now u).payload.email = none ∧
    (generateRefreshToken env now u).payload.exp = some (now + 2592000) ∧
    (generateRefreshToken env now u).sig = env.jwtSecret ∧
    (generateRefreshToken env now u).sig = (generateToken env now u opts).sig ∧
    (generateRefreshToken env now u).payload.iss =
      (generateToken env now u opts).payload.iss ∧
    (generateRefreshToken env now u).payload.aud =
      (generateToken env now u opts).payload.aud :=
  ⟨rfl, rfl, rfl, rfl, rfl, rfl, rfl, rfl, rfl⟩

/-- C7: when `JWT_SECRET` or `MONGODB_URI` is absent, `start.js` exits with
code 1 and never reaches the `require('./server.js')` line. -/
theorem startServer_fatal_on_missing_env (e : StartEnv)
    (h : e.jwtSecret = none ∨ e.mongodbUri = none) :
    startServer e = .exited 1 ∧ startServer e ≠ .serving := by
  have key : ∀ v, v ∈ ["JWT_SECRET", "MONGODB_URI"] →
      envPresent (envLookup e v) = false → 0 < (missingEnvVars e).length := by
    intro v hv hfalse
    have hmem : v ∈ missingEnvVars e :=
      List.mem_filter.mpr ⟨hv, by simp [hfalse]⟩
    exact List.length_pos.mpr (List.ne_nil_of_mem hmem)
  have hlen : 0 < (missingEnvVars e).length := by
    rcases h with h | h
    · exact key "JWT_SECRET" (by simp) (by simp [envLookup, h, envPresent])
    · exact key "MONGODB_URI" (by simp) (by simp [envLookup, h, envPresent])
  have hmain : startServer e = .exited 1 := by
    cases hf : e.envFileExists <;> simp [startServer, hf, hlen]
  exact ⟨hmain, by simp [hmain]⟩

/-- C7 witness: a configuration with `.env` present and `JWT_SECRET` unset
is fatal. -/
theorem startServer_fatal_on_missing_env_witness :
    startServer { envFileExists := true, jwtSecret := none,
                  mongodbUri := some "mongodb" } = .exited 1 ∧
    startServer { envFileExists := true, jwtSecret := none,
                  mongodbUri := some "mongodb" } ≠ .serving :=
  startServer_fatal_on_missing_env _ (Or.inl rfl)

/-- C4: `extractTokenFromHeader` returns a token exactly when the header is
present and has the exact two-segment shape `Bearer <token>` — that is, the
word `Bearer`, one space, and a token containing no further space. -/
theorem extractTokenFromHeader_spec (h : Option (List Char)) (t : List Char) :
    extractTokenFromHeader h = some t ↔
      h = some (bearerChars ++ spaceChar :: t) ∧ spaceChar ∉ t := by
  constructor
  · intro he
    cases h with
    | none => simp [extractTokenFromHeader] at he
    | some s =>
      by_cases hs : s = []
      · simp [extractTokenFromHeader, hs] at he
      · rcases hsp : splitOnSpace s with _ | ⟨p0, ps⟩
        · exact absurd hsp (splitOnSpace_ne_nil s)
        · cases ps with
          | nil => simp [extractTokenFromHeader, hs, hsp] at he
          | cons p1 ps' =>
            cases ps' with
            | nil =>
              by_cases hb : p0 = bearerChars
              · simp [extractTokenFromHeader, hs, hsp, hb] at he
                have hjoin := joinSpace_splitOnSpace s
                rw [hsp, hb] at hjoin
                constructor
                · rw [← hjoin]
                  have hj2 : joinSpace [bearerChars, p1] =
                      bearerChars ++ spaceChar :: p1 := by simp [joinSpace]
                  rw [hj2, he]
                · rw [← he]
                  exact splitOnSpace_no_space s p1 (by simp [hsp])
              · simp [extractTokenFromHeader, hs, hsp, hb] at he
            | cons p2 ps'' => simp [extractTokenFromHeader, hs, hsp] at he
  · rintro ⟨rfl, hnos⟩
    have hbear : spaceChar ∉ bearerChars := by decide
    have hsplit : splitOnSpace (bearerChars ++ spaceChar :: t) =
        bearerChars :: splitOnSpace t := splitOnSpace_append _ _ hbear
    rw [splitOnSpace_of_no_space t hnos] at hsplit
    simp [extractTokenFromHeader, hsplit]

/-- C5 counterexample: a token issued at time 1000 with a truthy
zero-second expiry carries `exp = 1000`, and `isTokenExpired` at that same
time compares `exp < currentTime` strictly, so it reports `false` — the
token is NOT reported expired immediately, contradicting the claim. -/
theorem isTokenExpired_zero_expiry_counterexample :
    isTokenExpired
      (TokenString.wellFormed
        (generateToken jwtEnv0 1000 "user1" { expiresIn := some 0 })) 1000 =
      false := by decide

/-- C5 (amended): `isTokenExpired` returns true exactly when the token is
unparsable, the `exp` claim is absent or the falsy number 0, or `exp` is
strictly before the current time; a token issued with a zero-second expiry
at a positive time is reported not expired during its issuance second and
expired at every strictly later time. -/
theorem isTokenExpired_spec (s : TokenString) (now : Nat) (env : JwtEnv)
    (u : String) (later : Nat) (hpos : 0 < now) (hlater : now < later) :
    (isTokenExpired s now = true ↔
      s = TokenString.malformed ∨
      ∃ t, s = TokenString.wellFormed t ∧
        (t.payload.exp = none ∨ t.payload.exp = some 0 ∨
         ∃ e, t.payload.exp = some e ∧ e < now)) ∧
    isTokenExpired
      (TokenString.wellFormed
        (generateToken env now u { expiresIn := some 0 })) now = false ∧
    isTokenExpired
      (TokenString.wellFormed
        (generateToken env now u { expiresIn := some 0 })) later = true := by
  have hnz : now ≠ 0 := by omega
  refine ⟨?_, ?_, ?_⟩
  · cases s with
    | malformed => simp [isTokenExpired]
    | wellFormed t =>
      cases hexp : t.payload.exp with
      | none => simp [isTokenExpired, hexp]
      | some e =>
        by_cases he : e = 0
        · subst he; simp [isTokenExpired, hexp]
        · simp [isTokenExpired, hexp, he]
  · simp [isTokenExpired, generateToken, resolveExpiresIn, hnz]
  · simp [isTokenExpired, generateToken, resolveExpiresIn, hnz, hlater]

/-- C5 witness: the amended characterization evaluated at a malformed token
string at time 5, with the zero-second token issued at 5 and re-checked at
6. -/
theorem isTokenExpired_spec_witness :
    (isTokenExpired TokenString.malformed 5 = true ↔
      TokenString.malformed = TokenString.malformed ∨
      ∃ t, TokenString.malformed = TokenString.wellFormed t ∧
        (t.payload.exp = none ∨ t.payload.exp = some 0 ∨
         ∃ e, t.payload.exp = some e ∧ e < 5)) ∧
    isTokenExpired
      (TokenString.wellFormed
        (generateToken jwtEnv0 5 "u" { expiresIn := some 0 })) 5 = false ∧
    isTokenExpired
      (TokenString.wellFormed
        (generateToken jwtEnv0 5 "u" { expiresIn := some 0 })) 6 = true :=
  isTokenExpired_spec TokenString.malformed 5 jwtEnv0 "u" 6 (by decide) (by decide)

/-- C10: the public single-product read returns the very same 404 response
value both when no product with the id exists and when the stored product
has `isActive = false`. -/
theorem getProductById_notFound_indistinguishable (store : ProductStore)
    (id : String) :
    (lookupRec store id = none → getProductById store id = productNotFoundResult) ∧
    (∀ p, lookupRec store id = some p → p.isActive = false →
      getProductById store id = productNotFoundResult) := by
  constructor
  · intro h; simp [getProductById, h]
  · intro p hp hia; simp [getProductById, hp, hia]

/-- C10 witness: an absent id and a concrete soft-deleted product both
produce the 404 response. -/
theorem getProductById_notFound_indistinguishable_witness :
    getProductById [] "x" = productNotFoundResult ∧
    getProductById [("p1", sampleInactiveProduct)] "p1" = productNotFoundResult :=
  ⟨(getProductById_notFound_indistinguishable [] "x").1 rfl,
   (getProductById_notFound_indistinguishable [("p1", sampleInactiveProduct)]
      "p1").2 sampleInactiveProduct rfl rfl⟩

/-- C8: deleting an existing product reports success, keeps the record in
the store with `isActive := false` and a refreshed `updatedAt` and every
other field unchanged, and leaves every other record untouched. -/
theorem deleteProduct_soft_delete (store : ProductStore) (now : Nat)
    (id : String) (p : Product) (hp : lookupRec store id = some p) :
    (deleteProduct store now id).fst =
      { status := 200, success := true,
        message := some "Product deleted successfully" } ∧
    lookupRec (deleteProduct store now id).snd id =
      some { p with isActive := false, updatedAt := now } ∧
    ∀ j, j ≠ id → lookupRec (deleteProduct store now id).snd j =
      lookupRec store j := by
  refine ⟨by simp [deleteProduct, hp], ?_, ?_⟩
  · simp [deleteProduct, hp, lookupRec_updateRec_self]
  · intro j hj
    simp [deleteProduct, hp, lookupRec_updateRec_other _ _ _ _ hj]

/-- C8 witness: soft-deleting a concrete one-product store. -/
theorem deleteProduct_soft_delete_witness :
    (deleteProduct [("p1", sampleActiveProduct)] 7 "p1").fst =
      { status := 200, success := true,
        message := some "Product deleted successfully" } ∧
    lookupRec (deleteProduct [("p1", sampleActiveProduct)] 7 "p1").snd "p1" =
      some { sampleActiveProduct with isActive := false, updatedAt := 7 } ∧
    ∀ j, j ≠ "p1" →
      lookupRec (deleteProduct [("p1", sampleActiveProduct)] 7 "p1").snd j =
        lookupRec [("p1", sampleActiveProduct)] j :=
  deleteProduct_soft_delete [("p1", sampleActiveProduct)] 7 "p1"
    sampleActiveProduct rfl

/-- C3: an admin whose own attached user id equals the target id gets the
dedicated 400 self-protection response from both the delete route and the
toggle-status route whenever the record exists, and the store is returned
unchanged — not deleted, active flag not toggled, and neither a 403 nor a
success. -/
theorem adminSelfProtection (store : UserStore) (requester : AuthUser)
    (id : String) (u : User) (hadmin : requester.role = "admin")
    (hself : requester.userId = id) (hu : lookupRec store id = some u) :
    deleteUser store requester id = (cannotDeleteSelfResult, store) ∧
    toggleUserStatus store requester id = (cannotToggleSelfResult, store) ∧
    cannotDeleteSelfResult.status = 400 ∧
    cannotDeleteSelfResult.success = false ∧
    cannotToggleSelfResult.status = 400 ∧
    cannotToggleSelfResult.success = false := by
  have hbeq : (requester.userId == id) = true := by simp [hself]
  exact ⟨by simp [deleteUser, hu, hbeq], by simp [toggleUserStatus, hu, hbeq],
    rfl, rfl, rfl, rfl⟩

/-- C3 witness: a concrete admin targeting their own stored record. -/
theorem adminSelfProtection_witness :
    deleteUser [("a1", sampleAdminUser)]
        { userId := "a1", role := "admin", email := "root@x.com" } "a1" =
      (cannotDeleteSelfResult, [("a1", sampleAdminUser)]) ∧
    toggleUserStatus [("a1", sampleAdminUser)]
        { userId := "a1", role := "admin", email := "root@x.com" } "a1" =
      (cannotToggleSelfResult, [("a1", sampleAdminUser)]) ∧
    cannotDeleteSelfResult.status = 400 ∧
    cannotDeleteSelfResult.success = false ∧
    cannotToggleSelfResult.status = 400 ∧
    cannotToggleSelfResult.success = false :=
  adminSelfProtection [("a1", sampleAdminUser)]
    { userId := "a1", role := "admin", email := "root@x.com" } "a1"
    sampleAdminUser rfl rfl rfl

/-- C2 counterexample: the owner of an existing record sends a valid body
whose `username` is already held by another user; the route answers 400 and
performs no update, so "the update is performed if and only if the
requester is the owner or an admin" fails — the right-hand side holds (the
requester is the owner) while no update is performed.  (The same shape
fails for a target id absent from the store, where the route answers
404.) -/
theorem putUser_iff_counterexample :
    ¬ (((putUser [("u2", sampleRegularUser), ("u3", sampleTakenUser)] 0
          { userId := "u2", role := "user", email := "sam@x.com" } "u2"
          { username := some "taken" }).fst.status = 200) ↔
        (("u2" : String) = "u2" ∨ ("user" : String) = "admin")) := by decide

/-- C2 (amended): for an authenticated request with a valid body, the
update is performed (status 200) iff the requester is the owner or an admin
AND the target user exists AND the requested username (when supplied) is
not taken by another user; when the requester is neither the owner nor an
admin the response is the 403 access-denied value and the store is
unchanged. -/
theorem putUser_access_spec (store : UserStore) (now : Nat)
    (requester : AuthUser) (id : String) (body : UpdateBody)
    (hv : validateUpdateBody body = true) :
    ((putUser store now requester id body).fst.status = 200 ↔
      ((requester.userId = id ∨ requester.role = "admin") ∧
       (match body.username with
        | some un => usernameTakenBy store id un = false
        | none => True) ∧
       (lookupRec store id).isSome = true)) ∧
    (requester.userId ≠ id → requester.role ≠ "admin" →
      putUser store now requester id body = (accessDeniedResult, store)) := by
  constructor
  · by_cases hown : requester.userId = id ∨ requester.role = "admin"
    · have hc : (requester.userId != id && requester.role != "admin") = false := by
        rcases hown with h | h <;> simp [h]
      cases hbu : body.username with
      | none =>
        cases hl : lookupRec store id with
        | none => simp [putUser, hv, hc, hbu, hl, userNotFoundResult, hown]
        | some u => simp [putUser, hv, hc, hbu, hl, hown]
      | some un =>
        by_cases ht : usernameTakenBy store id un = true
        · simp [putUser, hv, hc, hbu, ht, usernameTakenResult]
        · have ht' : usernameTakenBy store id un = false := by simpa using ht
          cases hl : lookupRec store id with
          | none => simp [putUser, hv, hc, hbu, ht', hl, userNotFoundResult, hown]
          | some u => simp [putUser, hv, hc, hbu, ht', hl, hown]
    · have hne1 : requester.userId ≠ id := fun hh => hown (Or.inl hh)
      have hne2 : requester.role ≠ "admin" := fun hh => hown (Or.inr hh)
      have hc : (requester.userId != id && requester.role != "admin") = true := by
        simp [hne1, hne2]
      simp [putUser, hv, hc, accessDeniedResult, hown]
  · intro hne1 hne2
    have hc : (requester.userId != id && requester.role != "admin") = true := by
      simp [hne1, hne2]
    simp [putUser, hv, hc]

/-- C2 witness: the amended property at a concrete owner request whose
body updates `firstName` on an existing record. -/
theorem putUser_access_spec_witness :
    ((putUser [("u2", sampleRegularUser)] 3
        { userId := "u2", role := "user", email := "sam@x.com" } "u2"
        { firstName := some "Bob" }).fst.status = 200 ↔
      ((("u2" : String) = "u2" ∨ ("user" : String) = "admin") ∧ True ∧
       (lookupRec [("u2", sampleRegularUser)] "u2").isSome = true)) ∧
    (("u2" : String) ≠ "u2" → ("user" : String) ≠ "admin" →
      putUser [("u2", sampleRegularUser)] 3
        { userId := "u2", role := "user", email := "sam@x.com" } "u2"
        { firstName := some "Bob" } =
      (accessDeniedResult, [("u2", sampleRegularUser)])) :=
  putUser_access_spec [("u2", sampleRegularUser)] 3
    { userId := "u2", role := "user", email := "sam@x.com" } "u2"
    { firstName := some "Bob" } (by decide)

/-- C9: whatever body an authorized requester sends to the user-update
route — admin or not — every record in the resulting store comes from a
record already stored under the same id whose `role`, `email`, `password`
hash, `isActive` flag and `createdAt` are unchanged; only the profile
fields (`firstName`, `lastName`, `username`) and `updatedAt` can differ. -/
theorem putUser_frame (store : UserStore) (now : Nat) (requester : AuthUser)
    (id : String) (body : UpdateBody) (i : String) (u' : User)
    (h : lookupRec (putUser store now requester id body).snd i = some u') :
    ∃ u, lookupRec store i = some u ∧ u'.role = u.role ∧ u'.email = u.email ∧
      u'.password = u.password ∧ u'.isActive = u.isActive ∧
      u'.createdAt = u.createdAt := by
  have hsnd : (putUser store now requester id body).snd = store ∨
      (putUser store now requester id body).snd =
        updateRec store id (applyUserUpdate now body) := by
    unfold putUser
    split
    · left; rfl
    · split
      · left; rfl
      · split
        · left; rfl
        · cases hl : lookupRec store id with
          | none => left; rfl
          | some u => right; rfl
  rcases hsnd with hs | hs
  · rw [hs] at h
    exact ⟨u', h, rfl, rfl, rfl, rfl, rfl⟩
  · rw [hs] at h
    by_cases hi : i = id
    · subst hi
      rw [lookupRec_updateRec_self] at h
      cases hl : lookupRec store i with
      | none => rw [hl] at h; simp at h
      | some u =>
        rw [hl] at h
        simp at h
        subst h
        exact ⟨u, rfl, rfl, rfl, rfl, rfl, rfl⟩
    · rw [lookupRec_updateRec_other _ _ _ _ hi] at h
      exact ⟨u', h, rfl, rfl, rfl, rfl, rfl⟩

/-- C9 witness: a concrete owner request that renames the user; the stored
sensitive fields are recovered unchanged. -/
theorem putUser_frame_witness :
    ∃ u, lookupRec [("u2", sampleRegularUser)] "u2" = some u ∧
      (applyUserUpdate 3 { username := some "bobby" } sampleRegularUser).role =
        u.role ∧
      (applyUserUpdate 3 { username := some "bobby" } sampleRegularUser).email =
        u.email ∧
      (applyUserUpdate 3 { username := some "bobby" } sampleRegularUser).password =
        u.password ∧
      (applyUserUpdate 3 { username := some "bobby" } sampleRegularUser).isActive =
        u.isActive ∧
      (applyUserUpdate 3 { username := some "bobby" } sampleRegularUser).createdAt =
        u.createdAt :=
  putUser_frame [("u2", sampleRegularUser)] 3
    { userId := "u2", role := "user", email := "sam@x.com" } "u2"
    { username := some "bobby" } "u2"
    (applyUserUpdate 3 { username := some "bobby" } sampleRegularUser)
    (by decide)

end AwsMongoApp
